import Mathlib

/-!
Shallow embedding of `mill/setup.py` (class `FactoryEnv` and the module-level
`setup` entry point) from the factory repository.

Modelling conventions:
* The persisted config (`read_config`/`write_config`) is a `Config` record
  holding the keys `species`, `setup_stamp` and `activate_env` that
  `FactoryEnv` reads or writes.
* `time.strftime` with format `%Y%m%d%H%M%s` concatenates the `%Y%m%d%H%M` rendering
  of the local time with the `%s` epoch seconds and the code converts the
  result with `int(...)`.  A clock reading is modelled as the pair of both
  numbers (`Clock`), and `stampVal` computes the integer the code compares:
  the `ymdhm` part shifted left by the number of decimal digits of the epoch
  part, plus the epoch part.
* The filesystem and the external commands run by the hooks are modelled by a
  `World`: `getmtime` returns the clock reading of the modification time of a file
  (`none` when the file does not exist, in which case `os.path.getmtime`
  raises), `hookOk` tells whether a named hook method runs to completion or
  raises, `dirExists` models `os.path.isdir`, and `now` is the clock reading
  taken by `register_finished`.
* The class-level dict `FactoryEnv.meta` is the `Registry`.  Species fields
  are copied onto the instance by reference, so the in-place update of
  `loader_commands[env_activate]` performed by `setup_anaconda_refresh`
  mutates the registry entry as well; `runHook` models exactly that effect.
* A run of `FactoryEnv.__init__` is the total function `FactoryEnv_run`,
  returning the trace of hook invocations, the first uncaught error (if any),
  the persisted config after the run (unchanged unless `register_finished`
  executed `write_config`), the registry after the run, and the scaffold
  directories created by the `required_folders` loop.
-/

deriving instance DecidableEq for Except

namespace Factory

/-- Fuel-driven decimal digit counter (`ndAux f n` is the number of decimal
digits of `n` provided `n ≤ f`). -/
def ndAux : Nat → Nat → Nat
  | 0, _ => 1
  | f + 1, n => if n < 10 then 1 else ndAux f (n / 10) + 1

/-- Number of decimal digits of `n`, i.e. the length of `str(n)`. -/
def numDigits (n : Nat) : Nat := ndAux n n

/-- A clock reading as produced by `time.strftime` with format `%Y%m%d%H%M%s`:
the `%Y%m%d%H%M` rendering together with the `%s` epoch-seconds field. -/
structure Clock where
  ymdhm : Nat
  epoch : Nat
  deriving DecidableEq

/-- The integer the code stores and compares:
`int` of the `%Y%m%d%H%M` text followed by the `%s` text, i.e. the date part shifted past the decimal
digits of the epoch part. -/
def stampVal (c : Clock) : Nat := c.ymdhm * 10 ^ numDigits c.epoch + c.epoch

theorem ndAux_succ (f n : Nat) :
    ndAux (f + 1) n = if n < 10 then 1 else ndAux f (n / 10) + 1 := rfl

theorem ndAux_fuel_irrel (n : Nat) :
    ∀ f f', n ≤ f → n ≤ f' → ndAux f n = ndAux f' n := by
  induction n using Nat.strong_induction_on with
  | _ n ih =>
    intro f f' hf hf'
    match f, f' with
    | 0, 0 => rfl
    | 0, g + 1 =>
      have hn : n = 0 := by omega
      subst hn
      simp [ndAux]
    | g + 1, 0 =>
      have hn : n = 0 := by omega
      subst hn
      simp [ndAux]
    | g + 1, g' + 1 =>
      rw [ndAux_succ, ndAux_succ]
      by_cases h : n < 10
      · simp [h]
      · simp only [h, if_false]
        have hlt : n / 10 < n := Nat.div_lt_self (by omega) (by omega)
        rw [ih (n / 10) hlt g g' (by omega) (by omega)]

theorem ndAux_mono (m : Nat) :
    ∀ n f, n ≤ m → m ≤ f → ndAux f n ≤ ndAux f m := by
  induction m using Nat.strong_induction_on with
  | _ m ih =>
    intro n f hnm hmf
    match f with
    | 0 => exact Nat.le_refl _
    | g + 1 =>
      rw [ndAux_succ, ndAux_succ]
      by_cases hm : m < 10
      · have hn : n < 10 := by omega
        simp [hn, hm]
      · by_cases hn : n < 10
        · simp only [hn, if_true, hm, if_false]
          exact Nat.le_add_left 1 _
        · simp only [hn, hm, if_false]
          have h1 : n / 10 ≤ m / 10 := Nat.div_le_div_right hnm
          have h2 : m / 10 < m := Nat.div_lt_self (by omega) (by omega)
          exact Nat.add_le_add_right (ih (m / 10) h2 (n / 10) g h1 (by omega)) 1

theorem numDigits_mono {n m : Nat} (h : n ≤ m) : numDigits n ≤ numDigits m := by
  unfold numDigits
  calc ndAux n n = ndAux m n := ndAux_fuel_irrel n n m (Nat.le_refl n) h
    _ ≤ ndAux m m := ndAux_mono m n m h (Nat.le_refl m)

/-- The hybrid timestamp is monotone in both components of the clock
reading. -/
theorem stampVal_mono {c₁ c₂ : Clock} (hy : c₁.ymdhm ≤ c₂.ymdhm)
    (he : c₁.epoch ≤ c₂.epoch) : stampVal c₁ ≤ stampVal c₂ := by
  unfold stampVal
  have hpow : 10 ^ numDigits c₁.epoch ≤ 10 ^ numDigits c₂.epoch :=
    Nat.pow_le_pow_right (by omega) (numDigits_mono he)
  exact Nat.add_le_add (Nat.mul_le_mul hy hpow) he

/-- A species entry of `FactoryEnv.meta`: the attributes the `FactoryEnv`
code reads.  `reqsLists` keeps the keys matching `^reqs` in the insertion order of the dict literal together with their file lists; `env_activate` is
the `env_activate` entry of `loader_commands`. -/
structure SpeciesCfg where
  reqsLists : List (String × List String)
  setup_kickstart : String
  setup_refresh : String
  env_activate : String
  welcome : String
  source_cmd : String
  use_python2 : Bool
  deriving DecidableEq

/-- The `virtualenv` entry of `meta` from the source. -/
def virtualenv_cfg : SpeciesCfg :=
  { reqsLists := [("reqs", ["mill/requirements_virtualenv.txt"])]
    setup_kickstart := "setup_virtualenv"
    setup_refresh := "setup_virtualenv_refresh"
    env_activate := "env/bin/activate"
    welcome := "welcome_message"
    source_cmd := "source env/bin/activate"
    use_python2 := false }

/-- The `anaconda` entry of `meta` from the source. -/
def anaconda_cfg : SpeciesCfg :=
  { reqsLists := [("reqs_conda", ["mill/requirements_anaconda_conda.txt"]),
                  ("reqs_pip", ["mill/requirements_anaconda_pip.txt"])]
    setup_kickstart := "setup_anaconda"
    setup_refresh := "setup_anaconda_refresh"
    env_activate := "env/bin/activate"
    welcome := "welcome_message"
    source_cmd := "source env/bin/activate"
    use_python2 := true }

/-- The class-level table `FactoryEnv.meta`, one field per key. -/
structure Registry where
  virtualenv : SpeciesCfg
  anaconda : SpeciesCfg
  virtualenv_sandbox : SpeciesCfg
  deriving DecidableEq

/-- Membership test / lookup on the `meta` dict (`kind in self.meta`,
`self.meta[kind]`). -/
def Registry.lookup (r : Registry) (kind : String) : Option SpeciesCfg :=
  if kind = "virtualenv" then some r.virtualenv
  else if kind = "anaconda" then some r.anaconda
  else if kind = "virtualenv_sandbox" then some r.virtualenv_sandbox
  else none

/-- The initial `FactoryEnv.meta`: the two dict literals, plus
`meta[virtualenv_sandbox] = dict(meta[virtualenv])` with
`setup_kickstart` overridden to `setup_virtualenv_sandbox`. -/
def meta0 : Registry :=
  { virtualenv := virtualenv_cfg
    anaconda := anaconda_cfg
    virtualenv_sandbox := { virtualenv_cfg with setup_kickstart := "setup_virtualenv_sandbox" } }

/-- `FactoryEnv.required_folders`. -/
def required_folders : List String := ["logs", "connections"]

/-- The keys of the persisted config that `FactoryEnv` reads or writes:
`species`, `setup_stamp` (stored as the stamp integer) and `activate_env`. -/
structure Config where
  species : Option String
  setup_stamp : Option Nat
  activate_env : Option String
  deriving DecidableEq

/-- The uncaught exceptions a run can end with. -/
inductive Err where
  /-- `species` missing from `meta` (the code prints the welcome text and
  calls `sys.exit(1)`). -/
  | unknownSpecies
  /-- `os.path.getmtime` raised on a missing file. -/
  | fileNotFound (fn : String)
  /-- a hook method raised (failed external command, missing installer, ...). -/
  | hookFailure (hook : String)
  /-- `fns_changed` referenced with no `reqs*` key present. -/
  | nameError
  deriving DecidableEq

/-- Observable invocations performed by a run, in order. -/
inductive Event where
  /-- the kickstart hook was invoked (by name). -/
  | kick (hook : String)
  /-- the refresh hook was invoked (by name). -/
  | refr (hook : String)
  /-- `register_finished` wrote the config. -/
  | reg
  /-- the welcome hook was invoked (by name). -/
  | welc (hook : String)
  deriving DecidableEq

/-- External world: filesystem modification times, hook outcomes, directory
existence and the registration clock. -/
structure World where
  getmtime : String → Option Clock
  hookOk : String → Bool
  dirExists : String → Bool
  now : Clock

/-- The list comprehension inside `check_spotchange`:
`[fn for fn in self.__dict__[req_type] if int(strftime(..., getmtime(fn))) > int(self.timestamp)]`.
`os.path.getmtime` raises when the file is missing, so the whole
comprehension aborts with an error at the first missing file. -/
def filterChanged (w : World) (ts : Nat) : List String → Except Err (List String)
  | [] => .ok []
  | fn :: rest =>
    match w.getmtime fn with
    | none => .error (.fileNotFound fn)
    | some c =>
      match filterChanged w ts rest with
      | .error e => .error e
      | .ok tail => .ok (if ts < stampVal c then fn :: tail else tail)

/-- The `for req_type in reqs_keys` loop of `check_spotchange`.  Each
iteration **rebinds** `fns_changed`, so only the result of the last list survives;
the accumulator is `none` while `fns_changed` is still unbound. -/
def spotLoop (w : World) (ts : Nat) :
    List (List String) → Option (List String) → Except Err (Option (List String))
  | [], acc => .ok acc
  | fs :: rest, _ =>
    match filterChanged w ts fs with
    | .error e => .error e
    | .ok changed => spotLoop w ts rest (some changed)

/-- `FactoryEnv.check_spotchange`: loop over the `reqs*` attributes, then
`return any(fns_changed)`.  If no `reqs*` key existed, `fns_changed` is
unbound and the `return` raises a `NameError`. -/
def check_spotchange (w : World) (cfg : SpeciesCfg) (ts : Nat) : Except Err Bool :=
  match spotLoop w ts (cfg.reqsLists.map Prod.snd) none with
  | .error e => .error e
  | .ok none => .error .nameError
  | .ok (some fns_changed) => .ok (!fns_changed.isEmpty)

/-- `self.timestamp and self.check_spotchange()`: the check only runs when a
timestamp is stored. -/
def spotCheckOf (w : World) (cfg : SpeciesCfg) (c : Config) : Except Err Bool :=
  match c.setup_stamp with
  | none => .ok false
  | some ts => check_spotchange w cfg ts

/-- The value `setup_anaconda_refresh` assigns to
the `env_activate` entry of `self.loader_commands` when `use_python2` is set. -/
def py2_env_activate : String := "env/envs/py2/bin/activate py2"

/-- Invoke a hook method by name (`getattr(self, name)()`), returning the
registry and species view after the call plus whether it completed.
`setup_anaconda_refresh` with `use_python2` reassigns
`loader_commands[env_activate]` and `source_cmd` before any command runs;
`loader_commands` is the very dict stored in `FactoryEnv.meta`, so the
registry entry for `anaconda` is updated in place as well. -/
def runHook (w : World) (r : Registry) (cfg : SpeciesCfg) (hook : String) :
    Registry × SpeciesCfg × Bool :=
  if hook = "setup_anaconda_refresh" ∧ cfg.use_python2 then
    ({ r with anaconda := { r.anaconda with env_activate := py2_env_activate } },
     { cfg with env_activate := py2_env_activate,
                source_cmd := "source env/envs/py2/bin/activate py2" },
     w.hookOk hook)
  else (r, cfg, w.hookOk hook)

/-- `FactoryEnv.register_finished`: store `loader_commands[env_activate]`
under `activate_env` (every species defines `loader_commands`, so the
`hasattr` guard is always taken), stamp `setup_stamp` with the current clock
and `write_config`. -/
def register_finished (cfg : SpeciesCfg) (c : Config) (now : Clock) : Config :=
  { c with activate_env := some cfg.env_activate
           setup_stamp := some (stampVal now) }

/-- The methods defined on `FactoryEnv` (for the `hasattr(self, self.welcome)`
test before the welcome call). -/
def methodNames : List String :=
  ["check_spotchange", "register_finished", "setup_virtualenv_sandbox",
   "setup_virtualenv", "setup_virtualenv_refresh", "welcome_message",
   "setup_anaconda", "setup_anaconda_refresh"]

/-- Outcome of one `FactoryEnv.__init__` run: the ordered trace of hook and
registration events, the uncaught error if the run aborted, the persisted
config after the run, the registry (class-level `meta`) after the run, and
the scaffold directories the `required_folders` loop created. -/
structure RunResult where
  trace : List Event
  error : Option Err
  config : Config
  registry : Registry
  created : List String
  deriving DecidableEq

/-- Tail of a successful run: `register_finished`, then the welcome hook if
`hasattr(self, self.welcome)`. -/
def finish (w : World) (r : Registry) (c : Config) (cfg : SpeciesCfg)
    (tr : List Event) (created : List String) : RunResult :=
  { trace :=
      if methodNames.contains cfg.welcome
      then (tr ++ [Event.reg]) ++ [Event.welc cfg.welcome]
      else tr ++ [Event.reg]
    error := none
    config := register_finished cfg c w.now
    registry := r
    created := created }

/-- The `if not self.timestamp or do_refresh: getattr(self, self.setup_refresh)()`
step and everything after it.  `doIt` is the value of
`not self.timestamp or do_refresh`. -/
def refreshPhase (w : World) (r : Registry) (c : Config) (cfg : SpeciesCfg)
    (doIt : Bool) (tr : List Event) (created : List String) : RunResult :=
  if doIt then
    let rh := runHook w r cfg cfg.setup_refresh
    if rh.2.2 then
      finish w rh.1 c rh.2.1 (tr ++ [Event.refr cfg.setup_refresh]) created
    else
      { trace := tr ++ [Event.refr cfg.setup_refresh]
        error := some (.hookFailure cfg.setup_refresh)
        config := c
        registry := rh.1
        created := created }
  else finish w r c cfg tr created

/-- The `if not self.timestamp: getattr(self, self.setup_kickstart)()` step
and everything after it.  `stale` is the result of `check_spotchange`
(`false` when it was skipped) and `refresh` the constructor argument, so
`do_refresh = stale || refresh`. -/
def kickPhase (w : World) (r : Registry) (c : Config) (cfg : SpeciesCfg)
    (stale refresh : Bool) (created : List String) : RunResult :=
  if c.setup_stamp.isNone then
    let rh := runHook w r cfg cfg.setup_kickstart
    if rh.2.2 then
      refreshPhase w rh.1 c rh.2.1 true [Event.kick cfg.setup_kickstart] created
    else
      { trace := [Event.kick cfg.setup_kickstart]
        error := some (.hookFailure cfg.setup_kickstart)
        config := c
        registry := rh.1
        created := created }
  else refreshPhase w r c cfg (stale || refresh) [] created

/-- `FactoryEnv.__init__(refresh)`: ensure the scaffold directories, read the
config, resolve the species (or print the first-run message and
`sys.exit(1)`), evaluate `do_refresh`, run kickstart/refresh as decided,
register and welcome. -/
def FactoryEnv_run (w : World) (r0 : Registry) (c : Config) (refresh : Bool) :
    RunResult :=
  let created := required_folders.filter (fun d => !w.dirExists d)
  match c.species.bind r0.lookup with
  | none =>
    { trace := [], error := some .unknownSpecies, config := c
      registry := r0, created := created }
  | some cfg =>
    match spotCheckOf w cfg c with
    | .error e =>
      { trace := [], error := some e, config := c
        registry := r0, created := created }
    | .ok stale => kickPhase w r0 c cfg stale refresh created

/-- Module-level `setup(refresh=False)`: the body constructs
`FactoryEnv(refresh=True)`, ignoring its own `refresh` argument. -/
def setup (w : World) (r : Registry) (c : Config) (refresh : Bool) : RunResult :=
  FactoryEnv_run w r c true

/-- Module-level `init(refresh=False)`: forwards to `setup`. -/
def init (w : World) (r : Registry) (c : Config) (refresh : Bool) : RunResult :=
  setup w r c refresh

/-- The in-place `loader_commands` update is the only way a hook touches the
registry: it overwrites the `anaconda` activation entry. -/
def pyUpd (r : Registry) : Registry :=
  { r with anaconda := { r.anaconda with env_activate := py2_env_activate } }

/-! ## Concrete fixtures used by the closed theorems -/

/-- A world where every file exists with a tiny modification time, every
hook succeeds, every directory exists, and the registration clock reads
`⟨202601, 33333⟩`. -/
def wAll : World :=
  { getmtime := fun _ => some ⟨1, 1⟩
    hookOk := fun _ => true
    dirExists := fun _ => true
    now := ⟨202601, 33333⟩ }

/-- Same world observed at a later clock reading. -/
def wLater : World := { wAll with now := ⟨202602, 44444⟩ }

/-- Same world but the virtualenv refresh hook raises. -/
def wFailRefresh : World :=
  { wAll with hookOk := fun n => !(n == "setup_virtualenv_refresh") }

/-- An unconfigured record (`species` unset). -/
def cEmpty : Config := { species := none, setup_stamp := none, activate_env := none }

/-- A first-run record configured for `virtualenv`. -/
def cFresh : Config := { species := some "virtualenv", setup_stamp := none, activate_env := none }

/-- A first-run record configured for `anaconda`. -/
def cFreshAnaconda : Config :=
  { species := some "anaconda", setup_stamp := none, activate_env := none }

/-- A registered `virtualenv` record with stamp `999999`. -/
def cReady : Config :=
  { species := some "virtualenv", setup_stamp := some 999999
    activate_env := some "env/bin/activate" }

/-- A registered `anaconda` record with stamp `1000000`. -/
def cReadyAnaconda : Config :=
  { species := some "anaconda", setup_stamp := some 1000000
    activate_env := some "env/bin/activate" }

/-- A world where the conda requirements file is newer than stamp `1000000`
while the pip requirements file is older. -/
def wCondaNewer : World :=
  { getmtime := fun fn =>
      if fn = "mill/requirements_anaconda_conda.txt" then some ⟨202601010000, 2000⟩
      else if fn = "mill/requirements_anaconda_pip.txt" then some ⟨100, 100⟩
      else none
    hookOk := fun _ => true
    dirExists := fun _ => true
    now := ⟨202601010005, 3000⟩ }

/-- `wCondaNewer` with the conda requirements file removed from disk. -/
def wCondaMissing : World :=
  { wCondaNewer with getmtime := fun fn =>
      if fn = "mill/requirements_anaconda_pip.txt" then some ⟨100, 100⟩ else none }

/-! ## General lemmas about the phases -/

theorem runHook_ok (w : World) (r : Registry) (cfg : SpeciesCfg) (hook : String) :
    (runHook w r cfg hook).2.2 = w.hookOk hook := by
  unfold runHook
  split <;> rfl

theorem runHook_setup_refresh (w : World) (r : Registry) (cfg : SpeciesCfg) (hook : String) :
    (runHook w r cfg hook).2.1.setup_refresh = cfg.setup_refresh := by
  unfold runHook
  split <;> rfl

theorem runHook_setup_kickstart (w : World) (r : Registry) (cfg : SpeciesCfg) (hook : String) :
    (runHook w r cfg hook).2.1.setup_kickstart = cfg.setup_kickstart := by
  unfold runHook
  split <;> rfl

theorem runHook_welcome (w : World) (r : Registry) (cfg : SpeciesCfg) (hook : String) :
    (runHook w r cfg hook).2.1.welcome = cfg.welcome := by
  unfold runHook
  split <;> rfl

theorem runHook_registry (w : World) (r : Registry) (cfg : SpeciesCfg) (hook : String) :
    (runHook w r cfg hook).1 = r ∨ (runHook w r cfg hook).1 = pyUpd r := by
  unfold runHook
  split
  · right; rfl
  · left; rfl

theorem pyUpd_idem (r : Registry) : pyUpd (pyUpd r) = pyUpd r := rfl

theorem finish_error (w : World) (r : Registry) (c : Config) (cfg : SpeciesCfg)
    (tr : List Event) (cr : List String) : (finish w r c cfg tr cr).error = none := by
  unfold finish
  split <;> rfl

theorem finish_stamp (w : World) (r : Registry) (c : Config) (cfg : SpeciesCfg)
    (tr : List Event) (cr : List String) :
    (finish w r c cfg tr cr).config.setup_stamp = some (stampVal w.now) := by
  unfold finish
  split <;> rfl

theorem finish_registry (w : World) (r : Registry) (c : Config) (cfg : SpeciesCfg)
    (tr : List Event) (cr : List String) : (finish w r c cfg tr cr).registry = r := by
  unfold finish
  split <;> rfl

theorem refreshPhase_fail (w : World) (r : Registry) (c : Config) (cfg : SpeciesCfg)
    (doIt : Bool) (tr : List Event) (cr : List String)
    (h : (refreshPhase w r c cfg doIt tr cr).error ≠ none) :
    (refreshPhase w r c cfg doIt tr cr).config = c ∧
    (refreshPhase w r c cfg doIt tr cr).trace = tr ++ [Event.refr cfg.setup_refresh] := by
  simp only [refreshPhase] at h ⊢
  split_ifs at h ⊢ with h1 h2
  · exact absurd (finish_error ..) h
  · exact ⟨rfl, rfl⟩
  · exact absurd (finish_error ..) h

theorem refreshPhase_success_stamp (w : World) (r : Registry) (c : Config) (cfg : SpeciesCfg)
    (doIt : Bool) (tr : List Event) (cr : List String)
    (h : (refreshPhase w r c cfg doIt tr cr).error = none) :
    (refreshPhase w r c cfg doIt tr cr).config.setup_stamp = some (stampVal w.now) := by
  simp only [refreshPhase] at h ⊢
  split_ifs at h ⊢ with h1 h2
  · exact finish_stamp ..
  · exact finish_stamp ..

theorem refreshPhase_registry (w : World) (r : Registry) (c : Config) (cfg : SpeciesCfg)
    (doIt : Bool) (tr : List Event) (cr : List String) :
    (refreshPhase w r c cfg doIt tr cr).registry = r ∨
    (refreshPhase w r c cfg doIt tr cr).registry = pyUpd r := by
  simp only [refreshPhase]
  split_ifs with h1 h2
  · rw [finish_registry]
    exact runHook_registry ..
  · exact runHook_registry ..
  · left
    exact finish_registry ..

theorem kickPhase_fail (w : World) (r : Registry) (c : Config) (cfg : SpeciesCfg)
    (stale refresh : Bool) (cr : List String)
    (h : (kickPhase w r c cfg stale refresh cr).error ≠ none) :
    (kickPhase w r c cfg stale refresh cr).config = c ∧
    Event.reg ∉ (kickPhase w r c cfg stale refresh cr).trace := by
  simp only [kickPhase] at h ⊢
  split_ifs at h ⊢ with h1 h2
  · obtain ⟨hc, htr⟩ := refreshPhase_fail _ _ _ _ _ _ _ h
    refine ⟨hc, ?_⟩
    rw [htr]
    simp
  · exact ⟨rfl, by simp⟩
  · obtain ⟨hc, htr⟩ := refreshPhase_fail _ _ _ _ _ _ _ h
    refine ⟨hc, ?_⟩
    rw [htr]
    simp

theorem kickPhase_success_stamp (w : World) (r : Registry) (c : Config) (cfg : SpeciesCfg)
    (stale refresh : Bool) (cr : List String)
    (h : (kickPhase w r c cfg stale refresh cr).error = none) :
    (kickPhase w r c cfg stale refresh cr).config.setup_stamp = some (stampVal w.now) := by
  simp only [kickPhase] at h ⊢
  split_ifs at h ⊢ with h1 h2
  · exact refreshPhase_success_stamp _ _ _ _ _ _ _ h
  · exact refreshPhase_success_stamp _ _ _ _ _ _ _ h

theorem kickPhase_registry (w : World) (r : Registry) (c : Config) (cfg : SpeciesCfg)
    (stale refresh : Bool) (cr : List String) :
    (kickPhase w r c cfg stale refresh cr).registry = r ∨
    (kickPhase w r c cfg stale refresh cr).registry = pyUpd r := by
  simp only [kickPhase]
  split_ifs with h1 h2
  · rcases refreshPhase_registry w (runHook w r cfg cfg.setup_kickstart).1 c
      (runHook w r cfg cfg.setup_kickstart).2.1 true [Event.kick cfg.setup_kickstart] cr with h | h
    · rw [h]
      exact runHook_registry ..
    · rw [h]
      rcases runHook_registry w r cfg cfg.setup_kickstart with h' | h'
      · rw [h']
        right; rfl
      · rw [h', pyUpd_idem]
        right; rfl
  · exact runHook_registry ..
  · exact refreshPhase_registry ..

theorem run_fail_frame (w : World) (r0 : Registry) (c : Config) (fl : Bool)
    (h : (FactoryEnv_run w r0 c fl).error ≠ none) :
    (FactoryEnv_run w r0 c fl).config = c ∧
    Event.reg ∉ (FactoryEnv_run w r0 c fl).trace := by
  unfold FactoryEnv_run at h ⊢
  cases hb : c.species.bind r0.lookup with
  | none => simp [hb]
  | some cfg =>
    cases hsp : spotCheckOf w cfg c with
    | error e => simp [hb, hsp]
    | ok stale =>
      simp only [hb, hsp] at h ⊢
      exact kickPhase_fail _ _ _ _ _ _ _ h

theorem run_success_stamp (w : World) (r0 : Registry) (c : Config) (fl : Bool)
    (h : (FactoryEnv_run w r0 c fl).error = none) :
    (FactoryEnv_run w r0 c fl).config.setup_stamp = some (stampVal w.now) := by
  unfold FactoryEnv_run at h ⊢
  cases hb : c.species.bind r0.lookup with
  | none => simp [hb] at h
  | some cfg =>
    cases hsp : spotCheckOf w cfg c with
    | error e => simp [hb, hsp] at h
    | ok stale =>
      simp only [hb, hsp] at h ⊢
      exact kickPhase_success_stamp _ _ _ _ _ _ _ h

theorem run_registry (w : World) (r0 : Registry) (c : Config) (fl : Bool) :
    (FactoryEnv_run w r0 c fl).registry = r0 ∨
    (FactoryEnv_run w r0 c fl).registry = pyUpd r0 := by
  unfold FactoryEnv_run
  cases hb : c.species.bind r0.lookup with
  | none => simp [hb]
  | some cfg =>
    cases hsp : spotCheckOf w cfg c with
    | error e => simp [hb, hsp]
    | ok stale =>
      simp only [hb, hsp]
      exact kickPhase_registry ..

/-- A fully successful first run (`setup_stamp` absent, every hook
succeeding) invokes the kickstart hook, then the refresh hook, then
registers, then welcomes — in exactly that order. -/
theorem run_first_all_ok (w : World) (r0 : Registry) (c : Config) (cfg : SpeciesCfg) (fl : Bool)
    (hbind : c.species.bind r0.lookup = some cfg)
    (hts : c.setup_stamp = none)
    (hok : ∀ h, w.hookOk h = true)
    (hw : methodNames.contains cfg.welcome = true) :
    (FactoryEnv_run w r0 c fl).trace =
      [Event.kick cfg.setup_kickstart, Event.refr cfg.setup_refresh,
       Event.reg, Event.welc cfg.welcome] ∧
    (FactoryEnv_run w r0 c fl).error = none := by
  unfold FactoryEnv_run
  simp only [hbind, spotCheckOf, hts]
  unfold kickPhase
  simp only [hts, Option.isNone_none, if_true, runHook_ok, hok]
  unfold refreshPhase
  simp only [if_true, runHook_ok, hok, runHook_setup_refresh]
  unfold finish
  simp only [runHook_welcome, hw, if_true]
  simp

/-- Every species of the shipped registry declares `welcome_message`, which
is a method of `FactoryEnv`. -/
theorem meta0_welcome {kind : String} {cfg : SpeciesCfg}
    (hl : meta0.lookup kind = some cfg) : methodNames.contains cfg.welcome = true := by
  unfold Registry.lookup at hl
  split_ifs at hl <;> (injection hl with h; subst h; decide)

/-- A missing file anywhere in a list makes the mtime comprehension raise. -/
theorem filterChanged_missing (w : World) (ts : Nat) :
    ∀ (fs : List String) (fn : String), fn ∈ fs → w.getmtime fn = none →
    ∃ g, filterChanged w ts fs = .error (.fileNotFound g) := by
  intro fs
  induction fs with
  | nil => intro fn h _; cases h
  | cons a rest ih =>
    intro fn hmem hmt
    unfold filterChanged
    cases hma : w.getmtime a with
    | none => exact ⟨a, by simp [hma]⟩
    | some cl =>
      rcases List.mem_cons.mp hmem with h | h
      · subst h
        rw [hmt] at hma
        exact Option.noConfusion hma
      · obtain ⟨g, hg⟩ := ih fn h hmt
        exact ⟨g, by simp [hma, hg]⟩

/-- The only error the mtime comprehension can raise is a missing file. -/
theorem filterChanged_shape (w : World) (ts : Nat) :
    ∀ (fs : List String) (e : Err), filterChanged w ts fs = .error e →
    ∃ g, e = Err.fileNotFound g := by
  intro fs
  induction fs with
  | nil => intro e h; exact Except.noConfusion h
  | cons a rest ih =>
    intro e h
    unfold filterChanged at h
    cases hma : w.getmtime a with
    | none =>
      simp only [hma] at h
      injection h with h'
      exact ⟨a, h'.symm⟩
    | some cl =>
      simp only [hma] at h
      cases hfr : filterChanged w ts rest with
      | error e' =>
        simp only [hfr] at h
        injection h with h'
        obtain ⟨g, hg⟩ := ih e' hfr
        exact ⟨g, by rw [← h', hg]⟩
      | ok tail =>
        simp only [hfr] at h
        exact Except.noConfusion h

/-- If any list handed to the `reqs*` loop contains a file whose
comprehension raises, the loop raises (every list is evaluated, even those
whose result is then discarded). -/
theorem spotLoop_missing (w : World) (ts : Nat) :
    ∀ (fss : List (List String)) (fs : List String) (acc : Option (List String)),
      fs ∈ fss → (∃ g, filterChanged w ts fs = .error (.fileNotFound g)) →
      ∃ g, spotLoop w ts fss acc = .error (.fileNotFound g) := by
  intro fss
  induction fss with
  | nil => intro fs acc h _; cases h
  | cons a rest ih =>
    intro fs acc hmem herr
    unfold spotLoop
    cases hfa : filterChanged w ts a with
    | error e =>
      obtain ⟨g, hg⟩ := filterChanged_shape w ts a e hfa
      exact ⟨g, by simp [hfa, hg]⟩
    | ok ch =>
      rcases List.mem_cons.mp hmem with h | h
      · subst h
        obtain ⟨g, hg⟩ := herr
        rw [hg] at hfa
        exact Except.noConfusion hfa
      · obtain ⟨g, hg⟩ := ih fs (some ch) h herr
        exact ⟨g, by simp [hfa, hg]⟩

/-! ## The claims -/

/-- C1. The claim says staleness holds iff **any** file in **any** declared
dependency-file list is newer than the stored timestamp.  The code disagrees:
`fns_changed` is rebound on every iteration of the `reqs*` loop, so only the
last list (`reqs_pip` for anaconda) decides.  Here the conda requirements
file has a modification stamp above the stored timestamp `1000000`, yet
`check_spotchange` answers `false` and the whole run performs no refresh
hook (the trace holds only the registration and the welcome call). -/
theorem C1_only_last_list_consulted :
    wCondaNewer.getmtime "mill/requirements_anaconda_conda.txt" =
      some ⟨202601010000, 2000⟩ ∧
    1000000 < stampVal ⟨202601010000, 2000⟩ ∧
    check_spotchange wCondaNewer anaconda_cfg 1000000 = .ok false ∧
    (FactoryEnv_run wCondaNewer meta0 cReadyAnaconda false).trace =
      [Event.reg, Event.welc "welcome_message"] := by
  decide

/-- C2. The claim says `setup(refresh=false)` on a fresh, unmodified
environment invokes zero hooks, and only `refresh=true` forces the refresh
branch.  The constructor indeed behaves that way (second conjunct), but
`setup` passes `refresh=True` to `FactoryEnv` regardless of its own
argument, so `setup(refresh=false)` still runs the refresh hook (third
conjunct), even though the environment is not stale (first conjunct). -/
theorem C2_setup_ignores_refresh_argument :
    check_spotchange wAll virtualenv_cfg 999999 = .ok false ∧
    (FactoryEnv_run wAll meta0 cReady false).trace =
      [Event.reg, Event.welc "welcome_message"] ∧
    (setup wAll meta0 cReady false).trace =
      [Event.refr "setup_virtualenv_refresh", Event.reg,
       Event.welc "welcome_message"] := by
  decide

/-- C3. For every species in the registry, a run with no stored setup
timestamp and all hooks succeeding invokes the kickstart hook exactly once,
then the refresh hook exactly once, then registers exactly once (the welcome
call follows), in exactly that order. -/
theorem C3_first_run_kickstart_refresh_register (w : World) (c : Config)
    (kind : String) (cfg : SpeciesCfg) (fl : Bool)
    (hs : c.species = some kind) (hl : meta0.lookup kind = some cfg)
    (hts : c.setup_stamp = none) (hok : ∀ h, w.hookOk h = true) :
    (FactoryEnv_run w meta0 c fl).trace =
      [Event.kick cfg.setup_kickstart, Event.refr cfg.setup_refresh,
       Event.reg, Event.welc cfg.welcome] ∧
    (FactoryEnv_run w meta0 c fl).error = none := by
  have hbind : c.species.bind meta0.lookup = some cfg := by
    rw [hs]
    simpa using hl
  exact run_first_all_ok w meta0 c cfg fl hbind hts hok (meta0_welcome hl)

/-- Witness for C3 at the `virtualenv` species with every hook
succeeding. -/
theorem C3_first_run_kickstart_refresh_register_witness :
    (cFresh.species = some "virtualenv" ∧
     meta0.lookup "virtualenv" = some virtualenv_cfg ∧
     cFresh.setup_stamp = none ∧
     (∀ h, wAll.hookOk h = true)) ∧
    ((FactoryEnv_run wAll meta0 cFresh false).trace =
      [Event.kick virtualenv_cfg.setup_kickstart,
       Event.refr virtualenv_cfg.setup_refresh,
       Event.reg, Event.welc virtualenv_cfg.welcome] ∧
     (FactoryEnv_run wAll meta0 cFresh false).error = none) :=
  ⟨⟨rfl, by decide, rfl, fun _ => rfl⟩,
   C3_first_run_kickstart_refresh_register wAll cFresh "virtualenv"
     virtualenv_cfg false rfl (by decide) rfl (fun _ => rfl)⟩

/-- C4 counterexample. Two consecutive successful registrations performed at
the same clock reading store the same `setup_stamp` value, so the stored
value does **not** strictly increase with every registration, refuting the
parenthetical "strictly greater" part of the claim. -/
theorem C4_strict_increase_fails :
    (FactoryEnv_run wAll meta0 cFresh false).error = none ∧
    (FactoryEnv_run wAll meta0 (FactoryEnv_run wAll meta0 cFresh false).config
      false).error = none ∧
    Event.reg ∈ (FactoryEnv_run wAll meta0
      (FactoryEnv_run wAll meta0 cFresh false).config false).trace ∧
    (FactoryEnv_run wAll meta0 (FactoryEnv_run wAll meta0 cFresh false).config
      false).config.setup_stamp =
      (FactoryEnv_run wAll meta0 cFresh false).config.setup_stamp ∧
    (FactoryEnv_run wAll meta0 cFresh false).config.setup_stamp =
      some 20260133333 := by
  decide

/-- C4 amended. Every successful run ends in a registration that stores the
stamp of the clock reading of the run, and across two consecutive successful
runs whose clock readings do not decrease (in both components of the hybrid
`%Y%m%d%H%M%s` representation) the newly stored `setup_stamp` is greater
than or equal to the previous one.  Strict growth only fails when both
registrations fall on the same clock reading. -/
theorem C4_register_monotone (w1 w2 : World) (r1 r2 : Registry) (c : Config)
    (f1 f2 : Bool)
    (hy : w1.now.ymdhm ≤ w2.now.ymdhm) (he : w1.now.epoch ≤ w2.now.epoch)
    (h1 : (FactoryEnv_run w1 r1 c f1).error = none)
    (h2 : (FactoryEnv_run w2 r2 (FactoryEnv_run w1 r1 c f1).config f2).error = none) :
    ∃ s1 s2,
      (FactoryEnv_run w1 r1 c f1).config.setup_stamp = some s1 ∧
      (FactoryEnv_run w2 r2 (FactoryEnv_run w1 r1 c f1).config f2).config.setup_stamp =
        some s2 ∧
      s1 ≤ s2 :=
  ⟨stampVal w1.now, stampVal w2.now, run_success_stamp _ _ _ _ h1,
   run_success_stamp _ _ _ _ h2, stampVal_mono hy he⟩

/-- Witness for C4 amended: two successful runs at increasing clock
readings. -/
theorem C4_register_monotone_witness :
    (wAll.now.ymdhm ≤ wLater.now.ymdhm ∧ wAll.now.epoch ≤ wLater.now.epoch ∧
     (FactoryEnv_run wAll meta0 cFresh false).error = none ∧
     (FactoryEnv_run wLater meta0 (FactoryEnv_run wAll meta0 cFresh false).config
       false).error = none) ∧
    ∃ s1 s2,
      (FactoryEnv_run wAll meta0 cFresh false).config.setup_stamp = some s1 ∧
      (FactoryEnv_run wLater meta0 (FactoryEnv_run wAll meta0 cFresh false).config
        false).config.setup_stamp = some s2 ∧
      s1 ≤ s2 :=
  ⟨⟨by decide, by decide, by decide, by decide⟩,
   C4_register_monotone wAll wLater meta0 meta0 cFresh false false
     (by decide) (by decide) (by decide) (by decide)⟩

/-- C5 counterexample. A successful first anaconda run mutates the species
registry: `setup_anaconda_refresh` reassigns
`loader_commands[env_activate]`, and `loader_commands` is the dict object
stored in the class-level `meta` table, so after the run the anaconda
registry entry carries the py2 activation path instead of its configured
value, refuting "never mutated at runtime". -/
theorem C5_registry_mutated_by_anaconda_refresh :
    (FactoryEnv_run wAll meta0 cFreshAnaconda false).error = none ∧
    (FactoryEnv_run wAll meta0 cFreshAnaconda false).registry ≠ meta0 ∧
    (FactoryEnv_run wAll meta0 cFreshAnaconda false).registry.anaconda.env_activate =
      "env/envs/py2/bin/activate py2" ∧
    meta0.anaconda.env_activate = "env/bin/activate" := by
  decide

/-- C5 amended. The registry is left unchanged by every run except that the
anaconda refresh hook (whose species sets `use_python2`) may overwrite the
`env_activate` entry of the anaconda species in place; the `virtualenv` and
`virtualenv_sandbox` entries are never altered. -/
theorem C5_registry_mutation_confined (w : World) (c : Config) (fl : Bool) :
    ((FactoryEnv_run w meta0 c fl).registry = meta0 ∨
     (FactoryEnv_run w meta0 c fl).registry = pyUpd meta0) ∧
    (FactoryEnv_run w meta0 c fl).registry.virtualenv = meta0.virtualenv ∧
    (FactoryEnv_run w meta0 c fl).registry.virtualenv_sandbox =
      meta0.virtualenv_sandbox := by
  refine ⟨run_registry .., ?_, ?_⟩ <;>
    rcases run_registry w meta0 c fl with h | h <;>
    simp [h, pyUpd]

/-- C6. If a run aborts with any uncaught error — in particular when the
refresh hook raises — no registration event occurred and the persisted
record (including `setup_stamp`) is exactly the one the run started from. -/
theorem C6_failed_run_leaves_record_unchanged (w : World) (r0 : Registry)
    (c : Config) (fl : Bool) (e : Err)
    (h : (FactoryEnv_run w r0 c fl).error = some e) :
    (FactoryEnv_run w r0 c fl).config = c ∧
    Event.reg ∉ (FactoryEnv_run w r0 c fl).trace :=
  run_fail_frame w r0 c fl (by simp [h])

/-- Witness for C6: the virtualenv refresh hook raises during a first run;
the stored record survives untouched and no registration happened. -/
theorem C6_failed_run_leaves_record_unchanged_witness :
    (FactoryEnv_run wFailRefresh meta0 cFresh false).error =
      some (Err.hookFailure "setup_virtualenv_refresh") ∧
    ((FactoryEnv_run wFailRefresh meta0 cFresh false).config = cFresh ∧
     Event.reg ∉ (FactoryEnv_run wFailRefresh meta0 cFresh false).trace) :=
  ⟨by decide,
   C6_failed_run_leaves_record_unchanged wFailRefresh meta0 cFresh false
     (Err.hookFailure "setup_virtualenv_refresh") (by decide)⟩

/-- C7. When the species of the record is unset or not a key of the registry, the
run fails with the unknown-species error, invokes no hook at all (empty
trace, so no kickstart, refresh, welcome or registration), leaves the
record and the registry unchanged, and creates no directory beyond the two
scaffold folders. -/
theorem C7_unknown_species_aborts_cleanly (w : World) (r0 : Registry)
    (c : Config) (fl : Bool) (h : c.species.bind r0.lookup = none) :
    FactoryEnv_run w r0 c fl =
      { trace := [], error := some Err.unknownSpecies, config := c, registry := r0,
        created := required_folders.filter (fun d => !w.dirExists d) } ∧
    (FactoryEnv_run w r0 c fl).created ⊆ required_folders := by
  constructor
  · simp only [FactoryEnv_run, h]
  · simp only [FactoryEnv_run, h]
    exact fun d hd => List.mem_of_mem_filter hd

/-- Witness for C7 at an unconfigured record. -/
theorem C7_unknown_species_aborts_cleanly_witness :
    cEmpty.species.bind meta0.lookup = none ∧
    (FactoryEnv_run wAll meta0 cEmpty false =
      { trace := [], error := some Err.unknownSpecies, config := cEmpty,
        registry := meta0,
        created := required_folders.filter (fun d => !wAll.dirExists d) } ∧
     (FactoryEnv_run wAll meta0 cEmpty false).created ⊆ required_folders) :=
  ⟨rfl, C7_unknown_species_aborts_cleanly wAll meta0 cEmpty false rfl⟩

/-- C8. The sandbox species is the base virtualenv species with only the
kickstart operation overridden: its refresh operation and every other field
equal the base values verbatim, while its kickstart differs. -/
theorem C8_sandbox_overrides_only_kickstart :
    meta0.virtualenv_sandbox =
      { meta0.virtualenv with setup_kickstart := "setup_virtualenv_sandbox" } ∧
    meta0.virtualenv_sandbox.setup_refresh = meta0.virtualenv.setup_refresh ∧
    meta0.virtualenv_sandbox.setup_kickstart = "setup_virtualenv_sandbox" ∧
    meta0.virtualenv_sandbox.setup_kickstart ≠ meta0.virtualenv.setup_kickstart ∧
    meta0.virtualenv_sandbox.reqsLists = meta0.virtualenv.reqsLists ∧
    meta0.virtualenv_sandbox.env_activate = meta0.virtualenv.env_activate ∧
    meta0.virtualenv_sandbox.welcome = meta0.virtualenv.welcome ∧
    meta0.virtualenv_sandbox.source_cmd = meta0.virtualenv.source_cmd ∧
    meta0.virtualenv_sandbox.use_python2 = meta0.virtualenv.use_python2 := by
  decide

/-- C9. On the already-fresh no-op path (stored timestamp present, staleness
check negative, no forced refresh) the run still registers: the trace holds
no kickstart or refresh event, yet `setup_stamp` is overwritten with the
stamp of the current clock and `activate_env` is rewritten from the species
configuration. -/
theorem C9_noop_path_still_registers (w : World) (r0 : Registry) (c : Config)
    (kind : String) (cfg : SpeciesCfg) (ts : Nat)
    (hs : c.species = some kind) (hl : r0.lookup kind = some cfg)
    (hts : c.setup_stamp = some ts)
    (hchk : check_spotchange w cfg ts = .ok false)
    (hw : methodNames.contains cfg.welcome = true) :
    FactoryEnv_run w r0 c false =
      { trace := [Event.reg, Event.welc cfg.welcome]
        error := none
        config := { c with setup_stamp := some (stampVal w.now)
                           activate_env := some cfg.env_activate }
        registry := r0
        created := required_folders.filter (fun d => !w.dirExists d) } := by
  have hbind : c.species.bind r0.lookup = some cfg := by
    rw [hs]
    simpa using hl
  unfold FactoryEnv_run
  simp only [hbind, spotCheckOf, hts, hchk]
  unfold kickPhase
  simp only [hts, Option.isNone_some, Bool.false_eq_true, if_false]
  unfold refreshPhase
  simp only [Bool.or_self, Bool.false_eq_true, if_false]
  unfold finish
  simp only [hw, if_true]
  rfl

/-- Witness for C9: a registered virtualenv record with nothing stale. -/
theorem C9_noop_path_still_registers_witness :
    (cReady.species = some "virtualenv" ∧
     meta0.lookup "virtualenv" = some virtualenv_cfg ∧
     cReady.setup_stamp = some 999999 ∧
     check_spotchange wAll virtualenv_cfg 999999 = .ok false ∧
     methodNames.contains virtualenv_cfg.welcome = true) ∧
    FactoryEnv_run wAll meta0 cReady false =
      { trace := [Event.reg, Event.welc virtualenv_cfg.welcome]
        error := none
        config := { cReady with setup_stamp := some (stampVal wAll.now)
                                activate_env := some virtualenv_cfg.env_activate }
        registry := meta0
        created := required_folders.filter (fun d => !wAll.dirExists d) } :=
  ⟨⟨rfl, by decide, rfl, by decide, by decide⟩,
   C9_noop_path_still_registers wAll meta0 cReady "virtualenv" virtualenv_cfg
     999999 rfl (by decide) rfl (by decide) (by decide)⟩

/-- C10. With a stored timestamp, if any file in any declared
dependency-file list is missing from disk, the run aborts inside the
staleness check with the missing-file error before any hook runs and before
registration: the trace is empty and the persisted record (and registry)
are unchanged. -/
theorem C10_missing_dependency_file_aborts (w : World) (r0 : Registry)
    (c : Config) (kind : String) (cfg : SpeciesCfg) (ts : Nat)
    (fs : List String) (fn : String) (fl : Bool)
    (hs : c.species = some kind) (hl : r0.lookup kind = some cfg)
    (hts : c.setup_stamp = some ts)
    (hfs : fs ∈ cfg.reqsLists.map Prod.snd) (hfn : fn ∈ fs)
    (hmt : w.getmtime fn = none) :
    ∃ g, FactoryEnv_run w r0 c fl =
      { trace := [], error := some (Err.fileNotFound g), config := c,
        registry := r0,
        created := required_folders.filter (fun d => !w.dirExists d) } := by
  have hbind : c.species.bind r0.lookup = some cfg := by
    rw [hs]
    simpa using hl
  obtain ⟨g, hg⟩ :=
    spotLoop_missing w ts (cfg.reqsLists.map Prod.snd) fs none hfs
      (filterChanged_missing w ts fs fn hfn hmt)
  have hchk : check_spotchange w cfg ts = .error (.fileNotFound g) := by
    unfold check_spotchange
    rw [hg]
  refine ⟨g, ?_⟩
  unfold FactoryEnv_run
  simp only [hbind, spotCheckOf, hts, hchk]

/-- Witness for C10: the conda requirements file is missing; even a forced
refresh aborts before any hook. -/
theorem C10_missing_dependency_file_aborts_witness :
    (cReadyAnaconda.species = some "anaconda" ∧
     meta0.lookup "anaconda" = some anaconda_cfg ∧
     cReadyAnaconda.setup_stamp = some 1000000 ∧
     ["mill/requirements_anaconda_conda.txt"] ∈ anaconda_cfg.reqsLists.map Prod.snd ∧
     "mill/requirements_anaconda_conda.txt" ∈ ["mill/requirements_anaconda_conda.txt"] ∧
     wCondaMissing.getmtime "mill/requirements_anaconda_conda.txt" = none) ∧
    ∃ g, FactoryEnv_run wCondaMissing meta0 cReadyAnaconda true =
      { trace := [], error := some (Err.fileNotFound g), config := cReadyAnaconda,
        registry := meta0,
        created := required_folders.filter (fun d => !wCondaMissing.dirExists d) } :=
  ⟨⟨rfl, by decide, rfl, by decide, by decide, by decide⟩,
   C10_missing_dependency_file_aborts wCondaMissing meta0 cReadyAnaconda
     "anaconda" anaconda_cfg 1000000 ["mill/requirements_anaconda_conda.txt"]
     "mill/requirements_anaconda_conda.txt" true rfl (by decide) rfl
     (by decide) (by decide) (by decide)⟩

end Factory
